import Mathlib

/-!
Shallow embedding of the service CRUD + Shopify-metaobject sync logic of the
zoo-product-form repository.

Sources embedded:
- `src/app/routes/app.services.new.jsx` (create action)
- `src/app/routes/app.services.$id.edit.jsx` (update + delete actions)
- `src/app/routes/app.services._index.jsx` (list-page delete action)
- `src/unnamed/part_001` (metaobject setup & backfill sync action)

The Prisma store is modelled as an in-memory list of `Service` records with an
autoincrement counter.  Remote GraphQL behaviour is supplied as an oracle
parameter: each action takes the outcome the remote call would have at that
point (success with an id, a userErrors response, or a thrown transport
error), and the action definition follows the JavaScript control flow,
including its try/catch placement.  Every action additionally returns the
trace of store writes and remote calls it performed, so the claims about
"how many calls / writes happened" are statements about those traces.
-/

/-- A local `Service` record (Prisma model: id, title, description?,
imageUrl?, metaobjectId?). `metaobjectId` is the spec's `remoteRef`. -/
structure Service where
  id : Nat
  title : String
  description : Option String
  imageUrl : Option String
  metaobjectId : Option String
deriving DecidableEq, Repr

/-- The Prisma store: the list of records plus the autoincrement counter. -/
structure DB where
  services : List Service
  nextId : Nat
deriving DecidableEq, Repr

/-- `prisma.service.findUnique({ where: { id } })`. -/
def findService (db : DB) (i : Nat) : Option Service :=
  db.services.find? (fun s => s.id == i)

/-- `prisma.service.update` of the three form fields. -/
def updateServiceFields (db : DB) (i : Nat) (title : String)
    (description imageUrl : Option String) : DB :=
  { db with
    services := db.services.map (fun s =>
      if s.id == i then
        { s with title := title, description := description, imageUrl := imageUrl }
      else s) }

/-- `prisma.service.update({ data: { metaobjectId } })`. -/
def setMetaobjectId (db : DB) (i : Nat) (mid : String) : DB :=
  { db with
    services := db.services.map (fun s =>
      if s.id == i then { s with metaobjectId := some mid } else s) }

/-- `prisma.service.delete({ where: { id } })` (the successful case). -/
def deleteService (db : DB) (i : Nat) : DB :=
  { db with services := db.services.filter (fun s => s.id != i) }

/-- JavaScript `String.prototype.trim()`: strip leading and trailing
whitespace (computed on the character list so it evaluates by `decide`). -/
def jsTrim (s : String) : String :=
  ⟨((s.data.dropWhile Char.isWhitespace).reverse.dropWhile Char.isWhitespace).reverse⟩

/-- JavaScript `x || null` on a (trimmed) string: empty becomes null. -/
def orNull (s : String) : Option String :=
  if s = "" then none else some s

/-- The raw form fields of a create/update request (absent fields arrive as
the empty string after `String(formData.get(k) || "")`). -/
structure FormInput where
  title : String
  description : String
  imageUrl : String
deriving DecidableEq, Repr

/-- One store write, as recorded in an action's trace. -/
inductive StoreWrite
  | create (title : String) (description imageUrl : Option String)
  | updateFields (i : Nat) (title : String) (description imageUrl : Option String)
  | setMid (i : Nat) (mid : String)
  | deleteRec (i : Nat)
deriving DecidableEq, Repr

/-- The `handle` argument of `metaobjectUpsert`. -/
inductive Handle
  | byType (t : String)
  | byId (gid : String)
  | byTypeHandle (t : String) (h : String)
deriving DecidableEq, Repr

/-- One remote GraphQL call, as recorded in an action's trace. -/
inductive RemoteCall
  | upsert (h : Handle) (fields : List (String × String))
  | deleteObj (ref : String)
  | queryDefinitions
  | createDefinition (fieldKeys : List String)
deriving DecidableEq, Repr

/-- Outcome of a single `metaobjectUpsert` call in the per-record routes;
`ok mid` is a response with no userErrors and a truthy `metaobject.id`,
`userErrs` a response with non-empty `userErrors`, `noResult` a response with
neither (e.g. null `data`), `throws` a transport-level exception. -/
inductive UpsertOutcome
  | ok (mid : String)
  | userErrs
  | noResult
  | throws
deriving DecidableEq, Repr

/-- What a request handler returned to the framework. -/
inductive ActionResult
  | redirect (url : String)
  | formErrors (errors : List (String × String)) (values : Option FormInput)
  | jsonOk
  | jsonErr (msg : String)
deriving DecidableEq, Repr

/-- Result of a per-record route action together with the final store and
the traces of store writes and remote calls. -/
structure ActionOut where
  result : ActionResult
  db : DB
  storeWrites : List StoreWrite
  remoteCalls : List RemoteCall
deriving DecidableEq, Repr

/-- The metaobject field list built by the create/edit routes
(`app.services.new.jsx` lines 52-62, `app.services.$id.edit.jsx` lines
126-136): `title` always, `description` and `image` only when the trimmed
string is non-empty; the image key is `"image"` here. -/
def recordSyncFields (title description imageUrl : String) : List (String × String) :=
  [("title", title)]
    ++ (if description = "" then [] else [("description", description)])
    ++ (if imageUrl = "" then [] else [("image", imageUrl)])

/-- The action of `app.services.new.jsx` (create). -/
def newAction (db : DB) (form : FormInput) (remote : UpsertOutcome) : ActionOut :=
  let title := jsTrim form.title
  let description := jsTrim form.description
  let imageUrl := jsTrim form.imageUrl
  let values : FormInput := ⟨title, description, imageUrl⟩
  if title = "" then
    ⟨.formErrors [("title", "Title is required")] (some values), db, [], []⟩
  else
    let svc : Service := ⟨db.nextId, title, orNull description, orNull imageUrl, none⟩
    let db1 : DB := ⟨db.services ++ [svc], db.nextId + 1⟩
    let w : StoreWrite := .create title (orNull description) (orNull imageUrl)
    let call : RemoteCall := .upsert (.byType "zoo_service")
      (recordSyncFields title description imageUrl)
    match remote with
    | .throws =>
      ⟨.formErrors [("title", "Failed to create service. Please try again.")] (some values),
        db1, [w], [call]⟩
    | .userErrs => ⟨.redirect "/app", db1, [w], [call]⟩
    | .noResult => ⟨.redirect "/app", db1, [w], [call]⟩
    | .ok mid =>
      ⟨.redirect "/app", setMetaobjectId db1 svc.id mid, [w, .setMid svc.id mid], [call]⟩

/-- The update branch of the action of `app.services.$id.edit.jsx`
(no `intent=delete`). A missing record makes `prisma.service.update` throw,
which the route's catch turns into the generic form error. -/
def editUpdateAction (db : DB) (serviceId : Nat) (form : FormInput)
    (remote : UpsertOutcome) : ActionOut :=
  let title := jsTrim form.title
  let description := jsTrim form.description
  let imageUrl := jsTrim form.imageUrl
  let values : FormInput := ⟨title, description, imageUrl⟩
  if title = "" then
    ⟨.formErrors [("title", "Title is required")] (some values), db, [], []⟩
  else
    match findService db serviceId with
    | none =>
      ⟨.formErrors [("title", "Failed to update service. Please try again.")] (some values),
        db, [], []⟩
    | some existing =>
      let db1 := updateServiceFields db serviceId title (orNull description) (orNull imageUrl)
      let w : StoreWrite := .updateFields serviceId title (orNull description) (orNull imageUrl)
      let handle : Handle :=
        match existing.metaobjectId with
        | some m => .byId m
        | none => .byType "zoo_service"
      let call : RemoteCall := .upsert handle (recordSyncFields title description imageUrl)
      match remote with
      | .throws =>
        ⟨.formErrors [("title", "Failed to update service. Please try again.")] (some values),
          db1, [w], [call]⟩
      | .userErrs => ⟨.redirect "/app/services", db1, [w], [call]⟩
      | .noResult => ⟨.redirect "/app/services", db1, [w], [call]⟩
      | .ok mid =>
        match existing.metaobjectId with
        | some _ => ⟨.redirect "/app/services", db1, [w], [call]⟩
        | none =>
          ⟨.redirect "/app/services", setMetaobjectId db1 serviceId mid,
            [w, .setMid serviceId mid], [call]⟩

/-- Outcome of the remote `metaobjectDelete` call (its failure is swallowed
by an inner try/catch, so both constructors lead to the same route result). -/
inductive DeleteCallOutcome
  | ok
  | throws
deriving DecidableEq, Repr

/-- The delete branch (`intent === "delete"`) of the action of
`app.services.$id.edit.jsx`: local delete first, then a remote delete only
when a `metaobjectId` is present, whose failure is caught and ignored. -/
def deleteViaEdit (db : DB) (serviceId : Nat) (remote : DeleteCallOutcome) : ActionOut :=
  match findService db serviceId with
  | none =>
    ⟨.formErrors [("form", "Failed to delete service. Please try again.")] none, db, [], []⟩
  | some svc =>
    let db1 := deleteService db serviceId
    match svc.metaobjectId with
    | none => ⟨.redirect "/app/services", db1, [.deleteRec serviceId], []⟩
    | some mid =>
      match remote with
      | .ok => ⟨.redirect "/app/services", db1, [.deleteRec serviceId], [.deleteObj mid]⟩
      | .throws => ⟨.redirect "/app/services", db1, [.deleteRec serviceId], [.deleteObj mid]⟩

/-- The whole action of `app.services.$id.edit.jsx`, dispatching on the
`intent` form field. -/
def editRouteAction (db : DB) (serviceId : Nat) (intent : Option String)
    (form : FormInput) (upsertOut : UpsertOutcome) (deleteOut : DeleteCallOutcome) :
    ActionOut :=
  if intent == some "delete" then deleteViaEdit db serviceId deleteOut
  else editUpdateAction db serviceId form upsertOut

/-- The action of `app.services._index.jsx`: on `DELETE` with a `serviceId`
it only deletes the Prisma record (no remote call at all); a missing record
makes `prisma.service.delete` throw, caught into a JSON error. -/
def indexDeleteAction (db : DB) (method : String) (serviceId : Option Nat) : ActionOut :=
  match serviceId with
  | some sid =>
    if method == "DELETE" then
      if (findService db sid).isSome then
        ⟨.jsonOk, deleteService db sid, [.deleteRec sid], []⟩
      else
        ⟨.jsonErr "Failed to delete service", db, [], []⟩
    else ⟨.jsonErr "Invalid request", db, [], []⟩
  | none => ⟨.jsonErr "Invalid request", db, [], []⟩

/-- Severity tag of a log line pushed by the setup/backfill action. -/
inductive LogType
  | info
  | success
  | error
deriving DecidableEq, Repr

/-- One entry of the `logs` array of the setup/backfill action. -/
structure LogLine where
  type : LogType
  message : String
deriving DecidableEq, Repr

/-- The `stats` object returned by the setup/backfill action. -/
structure SyncStats where
  total : Nat
  success : Nat
  errors : Nat
deriving DecidableEq, Repr

/-- `errors.map(e => e.message).join(", ")`. -/
def joinMsgs : List String → String
  | [] => ""
  | [m] => m
  | m :: rest => m ++ ", " ++ joinMsgs rest

/-- Outcome of one `metaobjectUpsert` call inside the backfill loop: success
with the returned id, a userErrors response, or a thrown exception (whose
`error.message` is carried for the log line). -/
inductive BackfillUpsertOutcome
  | ok (mid : String)
  | userErrs (msgs : List String)
  | throws (msg : String)
deriving DecidableEq, Repr

/-- Outcome of the `metaobjectDefinitionCreate` call. -/
inductive DefCreateOutcome
  | ok (defId : String)
  | userErrs (msgs : List String)
deriving DecidableEq, Repr

/-- The remote type definitions returned by the bootstrap query, as
(id, type) pairs; `find` of the one whose `type` is `"zoo_service"`. -/
def zooServiceDef (defs : List (String × String)) : Option (String × String) :=
  defs.find? (fun d => d.2 == "zoo_service")

/-- The field keys of the `metaobjectDefinitionCreate` input
(`src/unnamed/part_001` lines 68-85). -/
def definitionFieldKeys : List String :=
  ["title", "description", "image_url"]

/-- Result of the check-or-create prefix of the setup action
(`src/unnamed/part_001` lines 18-115), factored out as the spec's
`ensureDefinition`: the definition id on success (`none` = hard failure),
the log lines and remote calls it produced, and the remote definition list
after the call (a successful creation makes the type exist remotely). -/
structure EnsureOut where
  defId : Option String
  logs : List LogLine
  remoteCalls : List RemoteCall
  newDefs : List (String × String)
deriving DecidableEq, Repr

/-- Check-before-create of the `zoo_service` metaobject definition
(`src/unnamed/part_001` lines 18-115). -/
def ensureDefinition (defs : List (String × String)) (createOut : DefCreateOutcome) :
    EnsureOut :=
  let l1 : LogLine := ⟨.info, "Checking for existing metaobject definition..."⟩
  match zooServiceDef defs with
  | some d =>
    ⟨some d.1,
      [l1, ⟨.success, "Found existing metaobject definition: " ++ d.1⟩],
      [.queryDefinitions], defs⟩
  | none =>
    let l2 : LogLine := ⟨.info, "Creating zoo_service metaobject definition..."⟩
    match createOut with
    | .userErrs msgs =>
      ⟨none,
        [l1, l2, ⟨.error, "Failed to create definition: " ++ joinMsgs msgs⟩],
        [.queryDefinitions, .createDefinition definitionFieldKeys], defs⟩
    | .ok defId =>
      ⟨some defId,
        [l1, l2, ⟨.success, "Created metaobject definition: " ++ defId⟩],
        [.queryDefinitions, .createDefinition definitionFieldKeys],
        defs ++ [(defId, "zoo_service")]⟩

/-- The metaobject field list built in the backfill loop
(`src/unnamed/part_001` lines 134-153): `title` always, `description` and
`image_url` only when the stored value is truthy (non-null and non-empty);
the image key is `"image_url"` here. -/
def backfillFields (s : Service) : List (String × String) :=
  [("title", s.title)]
    ++ (match s.description with
        | some d => if d = "" then [] else [("description", d)]
        | none => [])
    ++ (match s.imageUrl with
        | some u => if u = "" then [] else [("image_url", u)]
        | none => [])

/-- The backfill loop's addressing: always the type-scoped handle
`"service-" + id` (`src/unnamed/part_001` lines 155-156, 178-182). -/
def backfillHandleFor (s : Service) : Handle :=
  .byTypeHandle "zoo_service" ("service-" ++ toString s.id)

/-- Accumulated state of the backfill loop over the service list. -/
structure LoopOut where
  db : DB
  logs : List LogLine
  storeWrites : List StoreWrite
  remoteCalls : List RemoteCall
  successCount : Nat
  errorCount : Nat
deriving DecidableEq, Repr

/-- The per-service sync loop of the setup action (`src/unnamed/part_001`
lines 126-222): an info line before each attempt, then on userErrors an
error line and `errorCount++`, on a thrown exception likewise, and on
success a `metaobjectId` store write, a success line and `successCount++`;
the loop never stops early. -/
def syncLoop (upsertFor : Nat → BackfillUpsertOutcome) (db : DB) :
    List Service → LoopOut
  | [] => ⟨db, [], [], [], 0, 0⟩
  | s :: rest =>
    let infoLine : LogLine := ⟨.info, "Syncing service: " ++ s.title⟩
    let call : RemoteCall := .upsert (backfillHandleFor s) (backfillFields s)
    match upsertFor s.id with
    | .userErrs msgs =>
      let eLine : LogLine :=
        ⟨.error, "Failed to sync \"" ++ s.title ++ "\": " ++ joinMsgs msgs⟩
      let r := syncLoop upsertFor db rest
      ⟨r.db, infoLine :: eLine :: r.logs, r.storeWrites, call :: r.remoteCalls,
        r.successCount, r.errorCount + 1⟩
    | .throws msg =>
      let eLine : LogLine :=
        ⟨.error, "Error syncing \"" ++ s.title ++ "\": " ++ msg⟩
      let r := syncLoop upsertFor db rest
      ⟨r.db, infoLine :: eLine :: r.logs, r.storeWrites, call :: r.remoteCalls,
        r.successCount, r.errorCount + 1⟩
    | .ok mid =>
      let sLine : LogLine :=
        ⟨.success, "Synced \"" ++ s.title ++ "\" (" ++ mid ++ ")"⟩
      let r := syncLoop upsertFor (setMetaobjectId db s.id mid) rest
      ⟨r.db, infoLine :: sLine :: r.logs, .setMid s.id mid :: r.storeWrites,
        call :: r.remoteCalls, r.successCount + 1, r.errorCount⟩

/-- The full return value of the setup/backfill action. -/
structure BackfillOut where
  success : Bool
  logs : List LogLine
  stats : Option SyncStats
  db : DB
  storeWrites : List StoreWrite
  remoteCalls : List RemoteCall
deriving DecidableEq, Repr

/-- Steps 3-5 of the setup action (`src/unnamed/part_001` lines 117-237):
fetch all services, run the sync loop, append the summary line and return
the report. -/
def backfillRest (db : DB) (upsertFor : Nat → BackfillUpsertOutcome)
    (logsSoFar : List LogLine) (callsSoFar : List RemoteCall) : BackfillOut :=
  let l4 : LogLine := ⟨.info, "Fetching services from database..."⟩
  let services := db.services
  let l5 : LogLine :=
    ⟨.info, "Found " ++ toString services.length ++ " services to sync"⟩
  let r := syncLoop upsertFor db services
  let summary : LogLine :=
    ⟨.info, "\n=== Sync Complete ===\nSuccess: " ++ toString r.successCount
      ++ "\nErrors: " ++ toString r.errorCount
      ++ "\nTotal: " ++ toString services.length⟩
  { success := true,
    logs := logsSoFar ++ [l4, l5] ++ r.logs ++ [summary],
    stats := some ⟨services.length, r.successCount, r.errorCount⟩,
    db := r.db,
    storeWrites := r.storeWrites,
    remoteCalls := callsSoFar ++ r.remoteCalls }

/-- The whole setup/backfill action of `src/unnamed/part_001`: ensure the
definition (aborting with `success: false` and no stats when its creation
returns userErrors), then sync every service. -/
def backfillAction (defs : List (String × String)) (createOut : DefCreateOutcome)
    (upsertFor : Nat → BackfillUpsertOutcome) (db : DB) : BackfillOut :=
  let e := ensureDefinition defs createOut
  match e.defId with
  | none =>
    { success := false, logs := e.logs, stats := none, db := db,
      storeWrites := [], remoteCalls := e.remoteCalls }
  | some _ => backfillRest db upsertFor e.logs e.remoteCalls

/-- Count of `metaobjectDefinitionCreate` calls in a remote-call trace. -/
def creationCallCount (calls : List RemoteCall) : Nat :=
  calls.countP (fun c =>
    match c with
    | .createDefinition _ => true
    | _ => false)

/-- Whether a backfill upsert outcome is a success. -/
def isOkOutcome : BackfillUpsertOutcome → Bool
  | .ok _ => true
  | .userErrs _ => false
  | .throws _ => false

/-- Whether a backfill upsert outcome is a userErrors response. -/
def isUserErrsOutcome : BackfillUpsertOutcome → Bool
  | .ok _ => false
  | .userErrs _ => true
  | .throws _ => false

/-- Whether a backfill upsert outcome is a thrown exception. -/
def isThrowsOutcome : BackfillUpsertOutcome → Bool
  | .ok _ => false
  | .userErrs _ => false
  | .throws _ => true

/-- The log line the backfill loop pushes after one attempt. -/
def outcomeLogLine (s : Service) : BackfillUpsertOutcome → LogLine
  | .userErrs msgs => ⟨.error, "Failed to sync \"" ++ s.title ++ "\": " ++ joinMsgs msgs⟩
  | .throws msg => ⟨.error, "Error syncing \"" ++ s.title ++ "\": " ++ msg⟩
  | .ok mid => ⟨.success, "Synced \"" ++ s.title ++ "\" (" ++ mid ++ ")"⟩

/-- The two log lines the backfill loop pushes for one service: an info line
before the attempt and a success/error line after it. -/
def perRecordLogs (f : Nat → BackfillUpsertOutcome) (s : Service) : List LogLine :=
  [⟨.info, "Syncing service: " ++ s.title⟩, outcomeLogLine s (f s.id)]

/-- The log lines the whole backfill loop pushes, record by record. -/
def loopLogs (f : Nat → BackfillUpsertOutcome) : List Service → List LogLine
  | [] => []
  | s :: rest => perRecordLogs f s ++ loopLogs f rest

/-- The store writes the backfill loop performs: one `metaobjectId` write per
successful upsert, regardless of the record's current `metaobjectId`. -/
def loopWrites (f : Nat → BackfillUpsertOutcome) : List Service → List StoreWrite
  | [] => []
  | s :: rest =>
    (match f s.id with
     | .ok mid => [StoreWrite.setMid s.id mid]
     | .userErrs _ => []
     | .throws _ => []) ++ loopWrites f rest

theorem syncLoop_logs (f : Nat → BackfillUpsertOutcome) (l : List Service) :
    ∀ db : DB, (syncLoop f db l).logs = loopLogs f l := by
  induction l with
  | nil => intro db; rfl
  | cons s rest ih =>
    intro db
    cases h : f s.id with
    | ok mid => simp [syncLoop, loopLogs, perRecordLogs, outcomeLogLine, h, ih]
    | userErrs msgs => simp [syncLoop, loopLogs, perRecordLogs, outcomeLogLine, h, ih]
    | throws msg => simp [syncLoop, loopLogs, perRecordLogs, outcomeLogLine, h, ih]

theorem syncLoop_storeWrites (f : Nat → BackfillUpsertOutcome) (l : List Service) :
    ∀ db : DB, (syncLoop f db l).storeWrites = loopWrites f l := by
  induction l with
  | nil => intro db; rfl
  | cons s rest ih =>
    intro db
    cases h : f s.id with
    | ok mid => simp [syncLoop, loopWrites, h, ih]
    | userErrs msgs => simp [syncLoop, loopWrites, h, ih]
    | throws msg => simp [syncLoop, loopWrites, h, ih]

theorem syncLoop_remoteCalls (f : Nat → BackfillUpsertOutcome) (l : List Service) :
    ∀ db : DB, (syncLoop f db l).remoteCalls
      = l.map (fun s => RemoteCall.upsert (backfillHandleFor s) (backfillFields s)) := by
  induction l with
  | nil => intro db; rfl
  | cons s rest ih =>
    intro db
    cases h : f s.id with
    | ok mid => simp [syncLoop, h, ih]
    | userErrs msgs => simp [syncLoop, h, ih]
    | throws msg => simp [syncLoop, h, ih]

theorem syncLoop_successCount (f : Nat → BackfillUpsertOutcome) (l : List Service) :
    ∀ db : DB, (syncLoop f db l).successCount
      = l.countP (fun s => isOkOutcome (f s.id)) := by
  induction l with
  | nil => intro db; rfl
  | cons s rest ih =>
    intro db
    cases h : f s.id with
    | ok mid => simp [syncLoop, List.countP_cons, isOkOutcome, h, ih]
    | userErrs msgs => simp [syncLoop, List.countP_cons, isOkOutcome, h, ih]
    | throws msg => simp [syncLoop, List.countP_cons, isOkOutcome, h, ih]

theorem syncLoop_errorCount (f : Nat → BackfillUpsertOutcome) (l : List Service) :
    ∀ db : DB, (syncLoop f db l).errorCount
      = l.countP (fun s => !isOkOutcome (f s.id)) := by
  induction l with
  | nil => intro db; rfl
  | cons s rest ih =>
    intro db
    cases h : f s.id with
    | ok mid => simp [syncLoop, List.countP_cons, isOkOutcome, h, ih]
    | userErrs msgs => simp [syncLoop, List.countP_cons, isOkOutcome, h, ih]
    | throws msg => simp [syncLoop, List.countP_cons, isOkOutcome, h, ih]

theorem countP_ok_add_not_ok (f : Nat → BackfillUpsertOutcome) (l : List Service) :
    l.countP (fun s => isOkOutcome (f s.id))
      + l.countP (fun s => !isOkOutcome (f s.id)) = l.length := by
  induction l with
  | nil => simp
  | cons s rest ih =>
    cases h : isOkOutcome (f s.id) <;>
      simp [List.countP_cons, h] <;> omega

theorem countP_not_ok_eq_userErrs (f : Nat → BackfillUpsertOutcome) (l : List Service)
    (h : ∀ s ∈ l, isThrowsOutcome (f s.id) = false) :
    l.countP (fun s => !isOkOutcome (f s.id))
      = l.countP (fun s => isUserErrsOutcome (f s.id)) := by
  induction l with
  | nil => simp
  | cons s rest ih =>
    have hs : isThrowsOutcome (f s.id) = false := h s (by simp)
    have hr : ∀ x ∈ rest, isThrowsOutcome (f x.id) = false :=
      fun x hx => h x (by simp [hx])
    cases ho : f s.id with
    | ok mid =>
      rw [List.countP_cons, List.countP_cons, ih hr]
      have e1 : isOkOutcome (f s.id) = true := by rw [ho]; rfl
      have e2 : isUserErrsOutcome (f s.id) = false := by rw [ho]; rfl
      simp [e1, e2]
    | userErrs msgs =>
      rw [List.countP_cons, List.countP_cons, ih hr]
      have e1 : isOkOutcome (f s.id) = false := by rw [ho]; rfl
      have e2 : isUserErrsOutcome (f s.id) = true := by rw [ho]; rfl
      simp [e1, e2]
    | throws msg => rw [ho] at hs; simp [isThrowsOutcome] at hs

theorem loopLogs_count_info (f : Nat → BackfillUpsertOutcome) (l : List Service) :
    (loopLogs f l).countP (fun ll => ll.type == LogType.info) = l.length := by
  induction l with
  | nil => simp [loopLogs]
  | cons s rest ih =>
    cases ho : f s.id <;>
      simp [loopLogs, perRecordLogs, outcomeLogLine, ho, List.countP_cons,
        List.countP_append, ih]

theorem loopLogs_count_success (f : Nat → BackfillUpsertOutcome) (l : List Service) :
    (loopLogs f l).countP (fun ll => ll.type == LogType.success)
      = l.countP (fun s => isOkOutcome (f s.id)) := by
  induction l with
  | nil => simp [loopLogs]
  | cons s rest ih =>
    cases ho : f s.id <;>
      simp [loopLogs, perRecordLogs, outcomeLogLine, ho, List.countP_cons,
        List.countP_append, isOkOutcome, ih]

theorem loopLogs_count_error (f : Nat → BackfillUpsertOutcome) (l : List Service) :
    (loopLogs f l).countP (fun ll => ll.type == LogType.error)
      = l.countP (fun s => !isOkOutcome (f s.id)) := by
  induction l with
  | nil => simp [loopLogs]
  | cons s rest ih =>
    cases ho : f s.id <;>
      simp [loopLogs, perRecordLogs, outcomeLogLine, ho, List.countP_cons,
        List.countP_append, isOkOutcome, ih]

theorem find?_append_of_none {α : Type} {p : α → Bool} (l1 l2 : List α)
    (h : l1.find? p = none) : (l1 ++ l2).find? p = l2.find? p := by
  induction l1 with
  | nil => simp
  | cons a rest ih =>
    cases ha : p a with
    | true => rw [List.find?_cons_of_pos _ ha] at h; exact absurd h (by simp)
    | false =>
      rw [List.find?_cons_of_neg _ (by simp [ha])] at h
      rw [List.cons_append, List.find?_cons_of_neg _ (by simp [ha])]
      exact ih h

theorem find?_map_id_preserving (l : List Service) (g : Service → Service)
    (hg : ∀ s, (g s).id = s.id) (j : Nat) :
    (l.map g).find? (fun s => s.id == j)
      = (l.find? (fun s => s.id == j)).map g := by
  induction l with
  | nil => rfl
  | cons s rest ih =>
    cases h : (s.id == j) with
    | true =>
      have h1 : (List.map g (s :: rest)).find? (fun x => x.id == j) = some (g s) := by
        rw [List.map_cons]
        exact List.find?_cons_of_pos _ (by simp [hg, h])
      have h2 : (s :: rest).find? (fun x => x.id == j) = some s :=
        List.find?_cons_of_pos _ h
      rw [h1, h2]
      rfl
    | false =>
      have h1 : (List.map g (s :: rest)).find? (fun x => x.id == j)
          = (List.map g rest).find? (fun x => x.id == j) := by
        rw [List.map_cons]
        exact List.find?_cons_of_neg _ (by simp [hg, h])
      have h2 : (s :: rest).find? (fun x => x.id == j)
          = rest.find? (fun x => x.id == j) :=
        List.find?_cons_of_neg _ (by simp [h])
      rw [h1, h2]
      exact ih

theorem zooServiceDef_append_created (defs : List (String × String)) (i : String)
    (h : zooServiceDef defs = none) :
    zooServiceDef (defs ++ [(i, "zoo_service")]) = some (i, "zoo_service") := by
  unfold zooServiceDef at *
  rw [find?_append_of_none _ _ h]
  rfl

theorem findService_append_fresh (l : List Service) (svc : Service) (n j : Nat)
    (hj : svc.id = j) (hfresh : ∀ s ∈ l, s.id ≠ j) :
    findService ⟨l ++ [svc], n⟩ j = some svc := by
  unfold findService
  rw [find?_append_of_none]
  · simp [List.find?, hj]
  · rw [List.find?_eq_none]
    intro x hx
    simp only [beq_iff_eq]
    exact hfresh x hx

theorem findService_updateServiceFields (db : DB) (i : Nat) (t : String)
    (d u : Option String) (j : Nat) :
    findService (updateServiceFields db i t d u) j
      = (findService db j).map (fun s =>
          if s.id == i then
            { s with title := t, description := d, imageUrl := u }
          else s) := by
  unfold findService updateServiceFields
  exact find?_map_id_preserving _ _
    (fun s => by by_cases hsi : (s.id == i) = true <;> simp [hsi]) j

theorem findService_setMetaobjectId (db : DB) (i : Nat) (mid : String) (j : Nat) :
    findService (setMetaobjectId db i mid) j
      = (findService db j).map (fun s =>
          if s.id == i then { s with metaobjectId := some mid } else s) := by
  unfold findService setMetaobjectId
  exact find?_map_id_preserving _ _
    (fun s => by by_cases hsi : (s.id == i) = true <;> simp [hsi]) j

/-- C2: a create or update request whose title is empty after trimming is
answered with a field-level validation error on `title` together with the
echoed (trimmed) values, and the handler performs no store write and no
remote call before (or after) that check. -/
theorem C2_blank_title_rejected (db : DB) (sid : Nat) (form : FormInput)
    (r : UpsertOutcome) (h : jsTrim form.title = "") :
    newAction db form r
      = ⟨.formErrors [("title", "Title is required")]
          (some ⟨"", jsTrim form.description, jsTrim form.imageUrl⟩), db, [], []⟩
    ∧ editUpdateAction db sid form r
      = ⟨.formErrors [("title", "Title is required")]
          (some ⟨"", jsTrim form.description, jsTrim form.imageUrl⟩), db, [], []⟩ := by
  constructor <;> simp [newAction, editUpdateAction, h]

/-- Witness for C2 at a concrete whitespace-only title. -/
theorem C2_witness :
    jsTrim "   " = ""
    ∧ (newAction ⟨[], 1⟩ ⟨"   ", " d ", ""⟩ .userErrs
        = ⟨.formErrors [("title", "Title is required")]
            (some ⟨"", jsTrim " d ", jsTrim ""⟩), ⟨[], 1⟩, [], []⟩
      ∧ editUpdateAction ⟨[], 1⟩ 7 ⟨"   ", " d ", ""⟩ .userErrs
        = ⟨.formErrors [("title", "Title is required")]
            (some ⟨"", jsTrim " d ", jsTrim ""⟩), ⟨[], 1⟩, [], []⟩) :=
  ⟨by decide, C2_blank_title_rejected ⟨[], 1⟩ 7 ⟨"   ", " d ", ""⟩ .userErrs (by decide)⟩

/-- C1 counterexample: with an empty store and a valid title, a transport
error thrown by the remote upsert makes the create handler return the
form-level error result, not the success redirect, even though the local
record was created and kept. -/
theorem C1_counterexample :
    (newAction ⟨[], 1⟩ ⟨"Vet", "", ""⟩ .throws).result ≠ ActionResult.redirect "/app"
    ∧ (newAction ⟨[], 1⟩ ⟨"Vet", "", ""⟩ .throws).result
        = .formErrors [("title", "Failed to create service. Please try again.")]
            (some ⟨"Vet", "", ""⟩)
    ∧ (newAction ⟨[], 1⟩ ⟨"Vet", "", ""⟩ .throws).db.services
        = [⟨1, "Vet", none, none, none⟩] := by decide

/-- C1 amended: when the local write succeeds but the remote upsert throws a
transport error, the create and edit handlers catch the exception (nothing
propagates) and the already-written local record keeps its new field values,
but the handler returns the form-level error result instead of the success
redirect; only a non-throwing userErrors response yields the redirect. -/
theorem C1_transport_error_soft_failure (db : DB) (sid : Nat) (form : FormInput)
    (existing : Service) (ht : jsTrim form.title ≠ "")
    (hf : findService db sid = some existing) :
    ((newAction db form .throws).result
        = .formErrors [("title", "Failed to create service. Please try again.")]
            (some ⟨jsTrim form.title, jsTrim form.description, jsTrim form.imageUrl⟩)
      ∧ (newAction db form .throws).db.services
        = db.services ++ [⟨db.nextId, jsTrim form.title,
            orNull (jsTrim form.description), orNull (jsTrim form.imageUrl), none⟩]
      ∧ (newAction db form .userErrs).result = .redirect "/app")
    ∧ ((editUpdateAction db sid form .throws).result
        = .formErrors [("title", "Failed to update service. Please try again.")]
            (some ⟨jsTrim form.title, jsTrim form.description, jsTrim form.imageUrl⟩)
      ∧ (editUpdateAction db sid form .throws).db
        = updateServiceFields db sid (jsTrim form.title)
            (orNull (jsTrim form.description)) (orNull (jsTrim form.imageUrl))
      ∧ (editUpdateAction db sid form .userErrs).result = .redirect "/app/services") := by
  refine ⟨⟨?_, ?_, ?_⟩, ?_, ?_, ?_⟩ <;>
    simp [newAction, editUpdateAction, hf, ht]

/-- Witness for C1 amended at a concrete store and form. -/
theorem C1_witness :
    jsTrim "Vet" ≠ ""
    ∧ findService ⟨[⟨1, "Old", none, none, none⟩], 2⟩ 1 = some ⟨1, "Old", none, none, none⟩
    ∧ (((newAction ⟨[⟨1, "Old", none, none, none⟩], 2⟩ ⟨"Vet", " d ", ""⟩ .throws).result
          = .formErrors [("title", "Failed to create service. Please try again.")]
              (some ⟨jsTrim "Vet", jsTrim " d ", jsTrim ""⟩)
        ∧ (newAction ⟨[⟨1, "Old", none, none, none⟩], 2⟩ ⟨"Vet", " d ", ""⟩ .throws).db.services
          = [⟨1, "Old", none, none, none⟩] ++ [⟨2, jsTrim "Vet",
              orNull (jsTrim " d "), orNull (jsTrim ""), none⟩]
        ∧ (newAction ⟨[⟨1, "Old", none, none, none⟩], 2⟩ ⟨"Vet", " d ", ""⟩ .userErrs).result
          = .redirect "/app")
      ∧ ((editUpdateAction ⟨[⟨1, "Old", none, none, none⟩], 2⟩ 1 ⟨"Vet", " d ", ""⟩ .throws).result
          = .formErrors [("title", "Failed to update service. Please try again.")]
              (some ⟨jsTrim "Vet", jsTrim " d ", jsTrim ""⟩)
        ∧ (editUpdateAction ⟨[⟨1, "Old", none, none, none⟩], 2⟩ 1 ⟨"Vet", " d ", ""⟩ .throws).db
          = updateServiceFields ⟨[⟨1, "Old", none, none, none⟩], 2⟩ 1 (jsTrim "Vet")
              (orNull (jsTrim " d ")) (orNull (jsTrim ""))
        ∧ (editUpdateAction ⟨[⟨1, "Old", none, none, none⟩], 2⟩ 1 ⟨"Vet", " d ", ""⟩ .userErrs).result
          = .redirect "/app/services")) :=
  ⟨by decide, by decide,
    C1_transport_error_soft_failure ⟨[⟨1, "Old", none, none, none⟩], 2⟩ 1
      ⟨"Vet", " d ", ""⟩ ⟨1, "Old", none, none, none⟩ (by decide) (by decide)⟩

/-- Claim C3 counterexample: running the backfill over a store whose single
service already has its remoteRef set, a successful upsert still performs a
further `metaobjectId` store write, so the write count does not stay at one
across backfill runs. -/
theorem C3_counterexample :
    (backfillAction [("d1", "zoo_service")] (.ok "x") (fun _ => .ok "gid1")
        ⟨[⟨1, "Vet", none, none, some "gid1"⟩], 2⟩).storeWrites
      = [StoreWrite.setMid 1 "gid1"]
    ∧ (backfillAction [("d1", "zoo_service")] (.ok "x") (fun _ => .ok "gid1")
        ⟨[⟨1, "Vet", none, none, some "gid1"⟩], 2⟩).storeWrites.length = 1 := by
  constructor
  · show (backfillAction _ _ _ _).storeWrites = _
    rw [backfillAction]
    simp [ensureDefinition, zooServiceDef, backfillRest, List.find?]
    rw [syncLoop_storeWrites]
    rfl
  · show (backfillAction _ _ _ _).storeWrites.length = 1
    rw [backfillAction]
    simp [ensureDefinition, zooServiceDef, backfillRest, List.find?]
    rw [syncLoop_storeWrites]
    rfl

/-- Claim C3 amended: the per-record edit path persists the remoteRef only
when it is absent (an already-set remoteRef is never re-written there), but
the backfill path performs a `metaobjectId` store write after every
successful upsert regardless of an existing remoteRef, so repeated backfill
runs write it once per run. -/
theorem C3_remoteRef_write_policy (db : DB) (sid : Nat) (form : FormInput)
    (existing : Service) (mid m : String)
    (f : Nat → BackfillUpsertOutcome) (l : List Service) (db2 : DB)
    (ht : jsTrim form.title ≠ "") (hf : findService db sid = some existing) :
    (existing.metaobjectId = some m →
      (editUpdateAction db sid form (.ok mid)).storeWrites
        = [.updateFields sid (jsTrim form.title)
            (orNull (jsTrim form.description)) (orNull (jsTrim form.imageUrl))])
    ∧ (existing.metaobjectId = none →
      (editUpdateAction db sid form (.ok mid)).storeWrites
        = [.updateFields sid (jsTrim form.title)
            (orNull (jsTrim form.description)) (orNull (jsTrim form.imageUrl)),
           .setMid sid mid])
    ∧ (syncLoop f db2 l).storeWrites = loopWrites f l := by
  refine ⟨?_, ?_, syncLoop_storeWrites f l db2⟩
  · intro hm; simp [editUpdateAction, hf, ht, hm]
  · intro hm; simp [editUpdateAction, hf, ht, hm]

/-- Witness for C3 amended at a concrete store. -/
theorem C3_witness :
    jsTrim "Vet" ≠ ""
    ∧ findService ⟨[⟨1, "Old", none, none, some "gidA"⟩], 2⟩ 1
      = some ⟨1, "Old", none, none, some "gidA"⟩
    ∧ ((Service.mk 1 "Old" none none (some "gidA")).metaobjectId = some "gidA" →
        (editUpdateAction ⟨[⟨1, "Old", none, none, some "gidA"⟩], 2⟩ 1
            ⟨"Vet", "", ""⟩ (.ok "gidB")).storeWrites
          = [.updateFields 1 (jsTrim "Vet") (orNull (jsTrim "")) (orNull (jsTrim ""))])
    ∧ ((Service.mk 1 "Old" none none (some "gidA")).metaobjectId = none →
        (editUpdateAction ⟨[⟨1, "Old", none, none, some "gidA"⟩], 2⟩ 1
            ⟨"Vet", "", ""⟩ (.ok "gidB")).storeWrites
          = [.updateFields 1 (jsTrim "Vet") (orNull (jsTrim "")) (orNull (jsTrim "")),
             .setMid 1 "gidB"])
    ∧ (syncLoop (fun _ => .ok "gidB") ⟨[], 1⟩ [⟨1, "Old", none, none, some "gidA"⟩]).storeWrites
      = loopWrites (fun _ => .ok "gidB") [⟨1, "Old", none, none, some "gidA"⟩] :=
  ⟨by decide, by decide,
    (C3_remoteRef_write_policy ⟨[⟨1, "Old", none, none, some "gidA"⟩], 2⟩ 1
      ⟨"Vet", "", ""⟩ ⟨1, "Old", none, none, some "gidA"⟩ "gidB" "gidA"
      (fun _ => .ok "gidB") [⟨1, "Old", none, none, some "gidA"⟩] ⟨[], 1⟩
      (by decide) (by decide)).1,
    (C3_remoteRef_write_policy ⟨[⟨1, "Old", none, none, some "gidA"⟩], 2⟩ 1
      ⟨"Vet", "", ""⟩ ⟨1, "Old", none, none, some "gidA"⟩ "gidB" "gidA"
      (fun _ => .ok "gidB") [⟨1, "Old", none, none, some "gidA"⟩] ⟨[], 1⟩
      (by decide) (by decide)).2.1,
    (C3_remoteRef_write_policy ⟨[⟨1, "Old", none, none, some "gidA"⟩], 2⟩ 1
      ⟨"Vet", "", ""⟩ ⟨1, "Old", none, none, some "gidA"⟩ "gidB" "gidA"
      (fun _ => .ok "gidB") [⟨1, "Old", none, none, some "gidA"⟩] ⟨[], 1⟩
      (by decide) (by decide)).2.2⟩

/-- Claim C4: over a store of N services where each remote upsert either
succeeds or returns userErrors (no exceptions), with K userErrors outcomes,
the backfill visits all N records and reports `total = N`,
`successCount = N - K`, `errorCount = K`; the loop log is exactly one info
line before each of the N attempts followed by one success/error line, so it
holds N info lines, N-K success lines and K error lines. -/
theorem C4_backfill_report (defs : List (String × String)) (d : String × String)
    (c : DefCreateOutcome) (f : Nat → BackfillUpsertOutcome) (db : DB)
    (hd : zooServiceDef defs = some d)
    (hnt : ∀ s ∈ db.services, isThrowsOutcome (f s.id) = false) :
    (backfillAction defs c f db).success = true
    ∧ (backfillAction defs c f db).stats
      = some ⟨db.services.length,
          db.services.length - db.services.countP (fun s => isUserErrsOutcome (f s.id)),
          db.services.countP (fun s => isUserErrsOutcome (f s.id))⟩
    ∧ (syncLoop f db db.services).logs = loopLogs f db.services
    ∧ (syncLoop f db db.services).logs.countP (fun ll => ll.type == LogType.info)
      = db.services.length
    ∧ (syncLoop f db db.services).logs.countP (fun ll => ll.type == LogType.success)
      = db.services.length
          - db.services.countP (fun s => isUserErrsOutcome (f s.id))
    ∧ (syncLoop f db db.services).logs.countP (fun ll => ll.type == LogType.error)
      = db.services.countP (fun s => isUserErrsOutcome (f s.id)) := by
  have hko := countP_ok_add_not_ok f db.services
  have hue := countP_not_ok_eq_userErrs f db.services hnt
  have hsc : db.services.countP (fun s => isOkOutcome (f s.id))
      = db.services.length
          - db.services.countP (fun s => isUserErrsOutcome (f s.id)) := by omega
  refine ⟨?_, ?_, syncLoop_logs f db.services db, ?_, ?_, ?_⟩
  · simp [backfillAction, ensureDefinition, hd, backfillRest]
  · simp only [backfillAction, ensureDefinition, hd, backfillRest]
    rw [syncLoop_successCount, syncLoop_errorCount, hsc, hue]
  · rw [syncLoop_logs]
    exact loopLogs_count_info f db.services
  · rw [syncLoop_logs, loopLogs_count_success]
    exact hsc
  · rw [syncLoop_logs, loopLogs_count_error]
    exact hue

/-- Witness for C4 with two services, one userErrors outcome. -/
theorem C4_witness :
    zooServiceDef [("d1", "zoo_service")] = some ("d1", "zoo_service")
    ∧ (∀ s ∈ (DB.mk [⟨1, "A", none, none, none⟩, ⟨2, "B", none, none, none⟩] 3).services,
        isThrowsOutcome ((fun i => if i == 2 then .userErrs ["bad"] else .ok "g") s.id)
          = false)
    ∧ ((backfillAction [("d1", "zoo_service")] (.ok "x")
          (fun i => if i == 2 then .userErrs ["bad"] else .ok "g")
          ⟨[⟨1, "A", none, none, none⟩, ⟨2, "B", none, none, none⟩], 3⟩).success = true
      ∧ (backfillAction [("d1", "zoo_service")] (.ok "x")
          (fun i => if i == 2 then .userErrs ["bad"] else .ok "g")
          ⟨[⟨1, "A", none, none, none⟩, ⟨2, "B", none, none, none⟩], 3⟩).stats
        = some ⟨2, 1, 1⟩) := by
  have h := C4_backfill_report [("d1", "zoo_service")] ("d1", "zoo_service") (.ok "x")
    (fun i => if i == 2 then .userErrs ["bad"] else .ok "g")
    ⟨[⟨1, "A", none, none, none⟩, ⟨2, "B", none, none, none⟩], 3⟩
    (by decide) (by decide)
  refine ⟨by decide, by decide, h.1, ?_⟩
  rw [h.2.1]
  decide

/-- Claim C5 counterexample: deleting via the services index route a service
whose remoteRef is non-null issues zero remote calls (the claim requires
exactly one remote delete), while the local record is still removed. -/
theorem C5_counterexample :
    (indexDeleteAction ⟨[⟨1, "Vet", none, none, some "gid1"⟩], 2⟩ "DELETE"
        (some 1)).remoteCalls = []
    ∧ (indexDeleteAction ⟨[⟨1, "Vet", none, none, some "gid1"⟩], 2⟩ "DELETE"
        (some 1)).db = ⟨[], 2⟩
    ∧ (indexDeleteAction ⟨[⟨1, "Vet", none, none, some "gid1"⟩], 2⟩ "DELETE"
        (some 1)).result = .jsonOk := by decide

/-- Claim C5 amended: deletes through the edit route behave as claimed
(non-null remoteRef → exactly one remote delete addressed by that reference,
null remoteRef → zero remote calls, local record removed either way), but
deletes through the services index route issue zero remote calls regardless
of the remoteRef while still removing the local record. -/
theorem C5_delete_paths (db : DB) (sid : Nat) (svc : Service) (m : String)
    (rOut : DeleteCallOutcome) (hf : findService db sid = some svc) :
    (svc.metaobjectId = some m →
      (deleteViaEdit db sid rOut).remoteCalls = [.deleteObj m])
    ∧ (svc.metaobjectId = none → (deleteViaEdit db sid rOut).remoteCalls = [])
    ∧ (deleteViaEdit db sid rOut).db = deleteService db sid
    ∧ (deleteViaEdit db sid rOut).result = .redirect "/app/services"
    ∧ (deleteViaEdit db sid rOut).storeWrites = [.deleteRec sid]
    ∧ (indexDeleteAction db "DELETE" (some sid)).remoteCalls = []
    ∧ (indexDeleteAction db "DELETE" (some sid)).db = deleteService db sid
    ∧ (indexDeleteAction db "DELETE" (some sid)).result = .jsonOk := by
  have hsome : (findService db sid).isSome = true := by rw [hf]; rfl
  refine ⟨?_, ?_, ?_, ?_, ?_, ?_, ?_, ?_⟩
  · intro hm; cases rOut <;> simp [deleteViaEdit, hf, hm]
  · intro hm; simp [deleteViaEdit, hf, hm]
  · cases hm : svc.metaobjectId <;> cases rOut <;> simp [deleteViaEdit, hf, hm]
  · cases hm : svc.metaobjectId <;> cases rOut <;> simp [deleteViaEdit, hf, hm]
  · cases hm : svc.metaobjectId <;> cases rOut <;> simp [deleteViaEdit, hf, hm]
  · simp [indexDeleteAction, hsome]
  · simp [indexDeleteAction, hsome]
  · simp [indexDeleteAction, hsome]

/-- Witness for C5 amended at a concrete store with a set remoteRef. -/
theorem C5_witness :
    findService ⟨[⟨1, "Vet", none, none, some "gid1"⟩], 2⟩ 1
      = some ⟨1, "Vet", none, none, some "gid1"⟩
    ∧ (((Service.mk 1 "Vet" none none (some "gid1")).metaobjectId = some "gid1" →
        (deleteViaEdit ⟨[⟨1, "Vet", none, none, some "gid1"⟩], 2⟩ 1 .throws).remoteCalls
          = [.deleteObj "gid1"])
      ∧ ((Service.mk 1 "Vet" none none (some "gid1")).metaobjectId = none →
        (deleteViaEdit ⟨[⟨1, "Vet", none, none, some "gid1"⟩], 2⟩ 1 .throws).remoteCalls = [])
      ∧ (deleteViaEdit ⟨[⟨1, "Vet", none, none, some "gid1"⟩], 2⟩ 1 .throws).db
        = deleteService ⟨[⟨1, "Vet", none, none, some "gid1"⟩], 2⟩ 1
      ∧ (deleteViaEdit ⟨[⟨1, "Vet", none, none, some "gid1"⟩], 2⟩ 1 .throws).result
        = .redirect "/app/services"
      ∧ (deleteViaEdit ⟨[⟨1, "Vet", none, none, some "gid1"⟩], 2⟩ 1 .throws).storeWrites
        = [.deleteRec 1]
      ∧ (indexDeleteAction ⟨[⟨1, "Vet", none, none, some "gid1"⟩], 2⟩ "DELETE"
          (some 1)).remoteCalls = []
      ∧ (indexDeleteAction ⟨[⟨1, "Vet", none, none, some "gid1"⟩], 2⟩ "DELETE"
          (some 1)).db = deleteService ⟨[⟨1, "Vet", none, none, some "gid1"⟩], 2⟩ 1
      ∧ (indexDeleteAction ⟨[⟨1, "Vet", none, none, some "gid1"⟩], 2⟩ "DELETE"
          (some 1)).result = .jsonOk) :=
  ⟨by decide,
    C5_delete_paths ⟨[⟨1, "Vet", none, none, some "gid1"⟩], 2⟩ 1
      ⟨1, "Vet", none, none, some "gid1"⟩ "gid1" .throws (by decide)⟩

/-- Claim C6: `ensureDefinition` is idempotent with respect to creation —
when a `zoo_service` definition already exists among the queried definitions
it performs zero creation calls, returns the existing definition's id and
leaves the remote definitions unchanged; and after any successful call, a
second call performs zero creation calls. -/
theorem C6_ensureDefinition_idempotent :
    (∀ (defs : List (String × String)) (c : DefCreateOutcome) (d : String × String),
      zooServiceDef defs = some d →
      creationCallCount (ensureDefinition defs c).remoteCalls = 0
      ∧ (ensureDefinition defs c).defId = some d.1
      ∧ (ensureDefinition defs c).newDefs = defs)
    ∧ (∀ (defs : List (String × String)) (c1 c2 : DefCreateOutcome),
      (ensureDefinition defs c1).defId.isSome = true →
      creationCallCount
        (ensureDefinition (ensureDefinition defs c1).newDefs c2).remoteCalls = 0) := by
  constructor
  · intro defs c d hd
    refine ⟨?_, ?_, ?_⟩
    · have hc : (ensureDefinition defs c).remoteCalls = [.queryDefinitions] := by
        simp [ensureDefinition, hd]
      rw [hc]; decide
    · simp [ensureDefinition, hd]
    · simp [ensureDefinition, hd]
  · intro defs c1 c2 h1
    cases hz : zooServiceDef defs with
    | some d =>
      have hnew : (ensureDefinition defs c1).newDefs = defs := by
        simp [ensureDefinition, hz]
      rw [hnew]
      have hc : (ensureDefinition defs c2).remoteCalls = [.queryDefinitions] := by
        simp [ensureDefinition, hz]
      rw [hc]; decide
    | none =>
      cases c1 with
      | userErrs msgs =>
        exfalso
        simp [ensureDefinition, hz] at h1
      | ok defId =>
        have hnew : (ensureDefinition defs (.ok defId)).newDefs
            = defs ++ [(defId, "zoo_service")] := by
          simp [ensureDefinition, hz]
        rw [hnew]
        have hz2 := zooServiceDef_append_created defs defId hz
        have hc : (ensureDefinition (defs ++ [(defId, "zoo_service")]) c2).remoteCalls
            = [.queryDefinitions] := by
          simp [ensureDefinition, hz2]
        rw [hc]; decide

/-- Witness for C6 at concrete definition lists. -/
theorem C6_witness :
    zooServiceDef [("d1", "zoo_service")] = some ("d1", "zoo_service")
    ∧ (creationCallCount
        (ensureDefinition [("d1", "zoo_service")] (.ok "zz")).remoteCalls = 0
      ∧ (ensureDefinition [("d1", "zoo_service")] (.ok "zz")).defId = some "d1"
      ∧ (ensureDefinition [("d1", "zoo_service")] (.ok "zz")).newDefs
        = [("d1", "zoo_service")])
    ∧ (ensureDefinition [] (.ok "n1")).defId.isSome = true
    ∧ creationCallCount
        (ensureDefinition (ensureDefinition [] (.ok "n1")).newDefs
          (.userErrs ["e"])).remoteCalls = 0 :=
  ⟨by decide,
    C6_ensureDefinition_idempotent.1 [("d1", "zoo_service")] (.ok "zz")
      ("d1", "zoo_service") (by decide),
    by decide,
    C6_ensureDefinition_idempotent.2 [] (.ok "n1") (.userErrs ["e"]) (by decide)⟩

/-- Claim C7: when the `zoo_service` definition is absent and its creation
returns userErrors, the whole backfill aborts before syncing any record —
it returns `success = false` with no stats, performs no store write, and its
remote calls are only the definitions query and the failed creation (no
instance upsert), with the fatal error as the last log line. -/
theorem C7_bootstrap_failure_aborts (defs : List (String × String))
    (msgs : List String) (f : Nat → BackfillUpsertOutcome) (db : DB)
    (hz : zooServiceDef defs = none) :
    backfillAction defs (.userErrs msgs) f db
      = { success := false,
          logs := [⟨.info, "Checking for existing metaobject definition..."⟩,
                   ⟨.info, "Creating zoo_service metaobject definition..."⟩,
                   ⟨.error, "Failed to create definition: " ++ joinMsgs msgs⟩],
          stats := none, db := db, storeWrites := [],
          remoteCalls := [.queryDefinitions, .createDefinition definitionFieldKeys] } := by
  simp [backfillAction, ensureDefinition, hz]

/-- Witness for C7 with a store that would otherwise sync. -/
theorem C7_witness :
    zooServiceDef [("p", "other_type")] = none
    ∧ backfillAction [("p", "other_type")] (.userErrs ["boom"]) (fun _ => .ok "m")
        ⟨[⟨1, "Vet", none, none, none⟩], 2⟩
      = { success := false,
          logs := [⟨.info, "Checking for existing metaobject definition..."⟩,
                   ⟨.info, "Creating zoo_service metaobject definition..."⟩,
                   ⟨.error, "Failed to create definition: " ++ joinMsgs ["boom"]⟩],
          stats := none, db := ⟨[⟨1, "Vet", none, none, none⟩], 2⟩, storeWrites := [],
          remoteCalls := [.queryDefinitions, .createDefinition definitionFieldKeys] } :=
  ⟨by decide,
    C7_bootstrap_failure_aborts [("p", "other_type")] ["boom"] (fun _ => .ok "m")
      ⟨[⟨1, "Vet", none, none, none⟩], 2⟩ (by decide)⟩

/-- Claim C8: the remote field key for the image attribute differs between
the two sync call sites — the per-record create/edit field builder uses key
`image` while the backfill field builder and the definition created at
bootstrap use `image_url`; in every path `title` is always included and
`description` and the image field only when non-empty. -/
theorem C8_image_key_divergence (t d u : String) (i : Nat) (mid : Option String)
    (hd : d ≠ "") (hu : u ≠ "") :
    recordSyncFields t d u = [("title", t), ("description", d), ("image", u)]
    ∧ backfillFields ⟨i, t, some d, some u, mid⟩
      = [("title", t), ("description", d), ("image_url", u)]
    ∧ recordSyncFields t "" "" = [("title", t)]
    ∧ backfillFields ⟨i, t, none, none, mid⟩ = [("title", t)]
    ∧ definitionFieldKeys = ["title", "description", "image_url"] := by
  refine ⟨?_, ?_, ?_, ?_, rfl⟩ <;> simp [recordSyncFields, backfillFields, hd, hu]

/-- Witness for C8 at concrete field values. -/
theorem C8_witness :
    ("Desc" : String) ≠ ""
    ∧ ("http://img" : String) ≠ ""
    ∧ (recordSyncFields "Vet" "Desc" "http://img"
        = [("title", "Vet"), ("description", "Desc"), ("image", "http://img")]
      ∧ backfillFields ⟨1, "Vet", some "Desc", some "http://img", none⟩
        = [("title", "Vet"), ("description", "Desc"), ("image_url", "http://img")]
      ∧ recordSyncFields "Vet" "" "" = [("title", "Vet")]
      ∧ backfillFields ⟨1, "Vet", none, none, none⟩ = [("title", "Vet")]
      ∧ definitionFieldKeys = ["title", "description", "image_url"]) :=
  ⟨by decide, by decide,
    C8_image_key_divergence "Vet" "Desc" "http://img" 1 none (by decide) (by decide)⟩

/-- Claim C9: the backfill loop always addresses by the type-scoped handle
`service-<id>` (regardless of any stored remoteRef), while the per-record
edit path addresses by the stored remote identifier when `remoteRef` is
present and falls back to the bare type when it is absent. -/
theorem C9_addressing_modes (f : Nat → BackfillUpsertOutcome) (db db2 : DB)
    (l : List Service) (sid : Nat) (form : FormInput) (existing : Service)
    (r : UpsertOutcome) (m : String)
    (ht : jsTrim form.title ≠ "") (hf : findService db sid = some existing) :
    (syncLoop f db2 l).remoteCalls
      = l.map (fun s => RemoteCall.upsert (backfillHandleFor s) (backfillFields s))
    ∧ (∀ s : Service, backfillHandleFor s
        = Handle.byTypeHandle "zoo_service" ("service-" ++ toString s.id))
    ∧ (existing.metaobjectId = some m →
        (editUpdateAction db sid form r).remoteCalls
          = [RemoteCall.upsert (Handle.byId m)
              (recordSyncFields (jsTrim form.title) (jsTrim form.description)
                (jsTrim form.imageUrl))])
    ∧ (existing.metaobjectId = none →
        (editUpdateAction db sid form r).remoteCalls
          = [RemoteCall.upsert (Handle.byType "zoo_service")
              (recordSyncFields (jsTrim form.title) (jsTrim form.description)
                (jsTrim form.imageUrl))]) := by
  refine ⟨syncLoop_remoteCalls f l db2, fun s => rfl, ?_, ?_⟩
  · intro hm; cases r <;> simp [editUpdateAction, hf, ht, hm]
  · intro hm; cases r <;> simp [editUpdateAction, hf, ht, hm]

/-- Witness for C9: a backfill record with a set remoteRef is still
addressed by its handle, and an edit with a set remoteRef by its id. -/
theorem C9_witness :
    jsTrim "Vet" ≠ ""
    ∧ findService ⟨[⟨1, "Old", none, none, some "gidA"⟩], 2⟩ 1
      = some ⟨1, "Old", none, none, some "gidA"⟩
    ∧ ((syncLoop (fun _ => .ok "g") ⟨[], 1⟩ [⟨3, "A", none, none, some "zzz"⟩]).remoteCalls
        = [⟨3, "A", none, none, some "zzz"⟩].map
            (fun s => RemoteCall.upsert (backfillHandleFor s) (backfillFields s))
      ∧ (∀ s : Service, backfillHandleFor s
          = Handle.byTypeHandle "zoo_service" ("service-" ++ toString s.id))
      ∧ ((Service.mk 1 "Old" none none (some "gidA")).metaobjectId = some "gidA" →
          (editUpdateAction ⟨[⟨1, "Old", none, none, some "gidA"⟩], 2⟩ 1
              ⟨"Vet", "", ""⟩ .userErrs).remoteCalls
            = [RemoteCall.upsert (Handle.byId "gidA")
                (recordSyncFields (jsTrim "Vet") (jsTrim "") (jsTrim ""))])
      ∧ ((Service.mk 1 "Old" none none (some "gidA")).metaobjectId = none →
          (editUpdateAction ⟨[⟨1, "Old", none, none, some "gidA"⟩], 2⟩ 1
              ⟨"Vet", "", ""⟩ .userErrs).remoteCalls
            = [RemoteCall.upsert (Handle.byType "zoo_service")
                (recordSyncFields (jsTrim "Vet") (jsTrim "") (jsTrim ""))])) :=
  ⟨by decide, by decide,
    C9_addressing_modes (fun _ => .ok "g") ⟨[⟨1, "Old", none, none, some "gidA"⟩], 2⟩
      ⟨[], 1⟩ [⟨3, "A", none, none, some "zzz"⟩] 1 ⟨"Vet", "", ""⟩
      ⟨1, "Old", none, none, some "gidA"⟩ .userErrs "gidA" (by decide) (by decide)⟩

/-- Claim C10: create and update trim all three form values before
validation and storage, and store an empty-after-trimming description or
imageUrl as null (never as the empty string): in the resulting store, the
written record carries the trimmed title and `orNull` of the trimmed
optional fields, and `orNull` maps the empty string to `none`. -/
theorem C10_trim_and_null_normalization (db : DB) (form : FormInput)
    (r : UpsertOutcome) (sid : Nat) (existing : Service)
    (hfresh : ∀ s ∈ db.services, s.id ≠ db.nextId)
    (ht : jsTrim form.title ≠ "") :
    (findService (newAction db form r).db db.nextId).map
        (fun s => (s.title, s.description, s.imageUrl))
      = some (jsTrim form.title, orNull (jsTrim form.description),
          orNull (jsTrim form.imageUrl))
    ∧ (findService db sid = some existing →
        (findService (editUpdateAction db sid form r).db sid).map
            (fun s => (s.title, s.description, s.imageUrl))
          = some (jsTrim form.title, orNull (jsTrim form.description),
              orNull (jsTrim form.imageUrl)))
    ∧ orNull "" = none := by
  have happ : findService ⟨db.services ++ [⟨db.nextId, jsTrim form.title,
      orNull (jsTrim form.description), orNull (jsTrim form.imageUrl), none⟩],
      db.nextId + 1⟩ db.nextId
    = some ⟨db.nextId, jsTrim form.title, orNull (jsTrim form.description),
        orNull (jsTrim form.imageUrl), none⟩ :=
    findService_append_fresh _ _ _ _ rfl hfresh
  refine ⟨?_, ?_, rfl⟩
  · cases r with
    | ok mid =>
      have hdb : (newAction db form (.ok mid)).db
          = setMetaobjectId ⟨db.services ++ [⟨db.nextId, jsTrim form.title,
              orNull (jsTrim form.description), orNull (jsTrim form.imageUrl), none⟩],
              db.nextId + 1⟩ db.nextId mid := by
        simp [newAction, ht]
      rw [hdb, findService_setMetaobjectId, happ]
      simp
    | userErrs =>
      have hdb : (newAction db form .userErrs).db
          = ⟨db.services ++ [⟨db.nextId, jsTrim form.title,
              orNull (jsTrim form.description), orNull (jsTrim form.imageUrl), none⟩],
              db.nextId + 1⟩ := by
        simp [newAction, ht]
      rw [hdb, happ]
      rfl
    | noResult =>
      have hdb : (newAction db form .noResult).db
          = ⟨db.services ++ [⟨db.nextId, jsTrim form.title,
              orNull (jsTrim form.description), orNull (jsTrim form.imageUrl), none⟩],
              db.nextId + 1⟩ := by
        simp [newAction, ht]
      rw [hdb, happ]
      rfl
    | throws =>
      have hdb : (newAction db form .throws).db
          = ⟨db.services ++ [⟨db.nextId, jsTrim form.title,
              orNull (jsTrim form.description), orNull (jsTrim form.imageUrl), none⟩],
              db.nextId + 1⟩ := by
        simp [newAction, ht]
      rw [hdb, happ]
      rfl
  · intro hf
    have hid : existing.id = sid := by
      have hfu : db.services.find? (fun s => s.id == sid) = some existing := hf
      have h2 := List.find?_some hfu
      simpa using h2
    have hupd : findService (updateServiceFields db sid (jsTrim form.title)
        (orNull (jsTrim form.description)) (orNull (jsTrim form.imageUrl))) sid
      = some { existing with
          title := jsTrim form.title,
          description := orNull (jsTrim form.description),
          imageUrl := orNull (jsTrim form.imageUrl) } := by
      rw [findService_updateServiceFields, hf]
      simp [hid]
    cases r with
    | ok mid =>
      cases hm : existing.metaobjectId with
      | some m =>
        have hdb : (editUpdateAction db sid form (.ok mid)).db
            = updateServiceFields db sid (jsTrim form.title)
                (orNull (jsTrim form.description)) (orNull (jsTrim form.imageUrl)) := by
          simp [editUpdateAction, hf, ht, hm]
        rw [hdb, hupd]
        rfl
      | none =>
        have hdb : (editUpdateAction db sid form (.ok mid)).db
            = setMetaobjectId (updateServiceFields db sid (jsTrim form.title)
                (orNull (jsTrim form.description)) (orNull (jsTrim form.imageUrl)))
                sid mid := by
          simp [editUpdateAction, hf, ht, hm]
        rw [hdb, findService_setMetaobjectId, hupd]
        simp [hid]
    | userErrs =>
      have hdb : (editUpdateAction db sid form .userErrs).db
          = updateServiceFields db sid (jsTrim form.title)
              (orNull (jsTrim form.description)) (orNull (jsTrim form.imageUrl)) := by
        simp [editUpdateAction, hf, ht]
      rw [hdb, hupd]
      rfl
    | noResult =>
      have hdb : (editUpdateAction db sid form .noResult).db
          = updateServiceFields db sid (jsTrim form.title)
              (orNull (jsTrim form.description)) (orNull (jsTrim form.imageUrl)) := by
        simp [editUpdateAction, hf, ht]
      rw [hdb, hupd]
      rfl
    | throws =>
      have hdb : (editUpdateAction db sid form .throws).db
          = updateServiceFields db sid (jsTrim form.title)
              (orNull (jsTrim form.description)) (orNull (jsTrim form.imageUrl)) := by
        simp [editUpdateAction, hf, ht]
      rw [hdb, hupd]
      rfl

/-- Witness for C10 at a concrete whitespace-laden form. -/
theorem C10_witness :
    (∀ s ∈ (DB.mk [⟨1, "Old", some "od", none, none⟩] 2).services, s.id ≠ 2)
    ∧ jsTrim " Vet " ≠ ""
    ∧ ((findService (newAction ⟨[⟨1, "Old", some "od", none, none⟩], 2⟩
          ⟨" Vet ", "  ", " u "⟩ (.ok "g")).db 2).map
            (fun s => (s.title, s.description, s.imageUrl))
        = some (jsTrim " Vet ", orNull (jsTrim "  "), orNull (jsTrim " u "))
      ∧ (findService ⟨[⟨1, "Old", some "od", none, none⟩], 2⟩ 1
            = some ⟨1, "Old", some "od", none, none⟩ →
          (findService (editUpdateAction ⟨[⟨1, "Old", some "od", none, none⟩], 2⟩ 1
              ⟨" Vet ", "  ", " u "⟩ (.ok "g")).db 1).map
              (fun s => (s.title, s.description, s.imageUrl))
            = some (jsTrim " Vet ", orNull (jsTrim "  "), orNull (jsTrim " u ")))
      ∧ orNull "" = none) :=
  ⟨by decide, by decide,
    C10_trim_and_null_normalization ⟨[⟨1, "Old", some "od", none, none⟩], 2⟩
      ⟨" Vet ", "  ", " u "⟩ (.ok "g") 1 ⟨1, "Old", some "od", none, none⟩
      (by decide) (by decide)⟩
